import Mathlib

/-!
Verification of the ch-pubsub event-archival pipeline declaration.

The repository declares an AWS CDK resource graph: an event bus, an events
bucket, and a Kinesis Firehose delivery stream that batches, transforms,
partitions and writes event records into the bucket.  This file embeds the
construct configurations (`src/infra/constructs/b1/firehose.py`,
`eventbus.py`, `storage.py`, `b2/pubsub.py`) as Lean data, gives an
executable semantics to the pieces of managed-service behaviour the
configuration drives (prefix-template rendering, JQ metadata extraction,
the per-record processor pipeline), and proves the specified properties.
-/

set_option autoImplicit false
set_option maxRecDepth 8000

namespace PubSub

/-- A flat JSON object, modelled as an association list from string keys to
string values.  Event bodies carry their partition fields this way. -/
abbrev JsonObject := List (String × String)

/-- A wall-clock timestamp, as used for the batch flush time.  Only the
calendar fields matter to the dynamic-partitioning prefix. -/
structure Timestamp where
  year : Nat
  month : Nat
  day : Nat
  hour : Nat
  minute : Nat
  second : Nat
deriving DecidableEq, Repr

/-- A calendar date (day granularity). -/
structure Date where
  year : Nat
  month : Nat
  day : Nat
deriving DecidableEq, Repr

/-- The date of a timestamp: the day-granularity projection. -/
def Timestamp.toDate (t : Timestamp) : Date :=
  ⟨t.year, t.month, t.day⟩

/-- Zero-pad a numeral to two digits, as `!\x7btimestamp:MM\x7d` and
`!\x7btimestamp:dd\x7d` render. -/
def pad2 (n : Nat) : String :=
  if n < 10 then "0" ++ toString n else toString n

/-- Zero-pad a numeral to four digits, as `!\x7btimestamp:yyyy\x7d` renders. -/
def pad4 (n : Nat) : String :=
  if n < 10 then "000" ++ toString n
  else if n < 100 then "00" ++ toString n
  else if n < 1000 then "0" ++ toString n
  else toString n

/-! ### Prefix templates

Firehose S3 prefixes are strings with `!\x7b...\x7d` placeholders
(`partitionKeyFromQuery:*`, `timestamp:*`, `firehose:error-output-type`).
We parse a template into literal and placeholder parts and render it by
substitution. -/

/-- One part of a parsed prefix template. -/
inductive TemplatePart
  | lit (s : String)
  | placeholder (p : String)
deriving DecidableEq, Repr

/-- Read the body of a placeholder up to the closing brace; returns the
placeholder text and the remaining characters. -/
def readPlaceholder : List Char → Option (List Char × List Char)
  | [] => none
  | '\x7d' :: rest => some ([], rest)
  | c :: rest => Option.map (fun p => (c :: p.1, p.2)) (readPlaceholder rest)

/-- Parse a template into parts, with `fuel` bounding the recursion; the
caller passes the input length as fuel, and each step consumes at least one
character, so the fuel never runs out on real input. -/
def parseTemplateAux : Nat → List Char → List TemplatePart
  | _, [] => []
  | 0, c :: rest => [.lit (String.mk (c :: rest))]
  | fuel + 1, '!' :: '\x7b' :: rest =>
    match readPlaceholder rest with
    | none => [.lit (String.mk ('!' :: '\x7b' :: rest))]
    | some (inner, rest2) =>
      .placeholder (String.mk inner) :: parseTemplateAux fuel rest2
  | fuel + 1, c :: rest =>
    match parseTemplateAux fuel rest with
    | .lit l :: parts => .lit (String.mk [c] ++ l) :: parts
    | parts => .lit (String.mk [c]) :: parts

/-- Parse a prefix template string into its parts. -/
def parseTemplate (s : String) : List TemplatePart :=
  parseTemplateAux s.length s.data

/-- Render parsed template parts under a placeholder substitution; fails when
a placeholder has no value. -/
def renderParts (subst : String → Option String) : List TemplatePart → Option String
  | [] => some ""
  | .lit l :: rest => Option.map (fun r => l ++ r) (renderParts subst rest)
  | .placeholder p :: rest =>
    match subst p with
    | none => none
    | some v => Option.map (fun r => v ++ r) (renderParts subst rest)

/-- Render a template string under a placeholder substitution. -/
def renderTemplate (subst : String → Option String) (s : String) : Option String :=
  renderParts subst (parseTemplate s)

/-! ### JQ metadata-extraction queries

The `MetadataExtraction` processor is configured with a JQ object query of
the shape `\x7bname:.field, name2:.field2\x7d`.  We parse that query and
evaluate it against a record body; a missing field makes extraction fail
(jq yields `null` for it, and a null partition key fails dynamic
partitioning). -/

/-- Split a character list on the comma character. -/
def splitComma : List Char → List (List Char)
  | [] => [[]]
  | ',' :: rest =>
    [] :: splitComma rest
  | c :: rest =>
    match splitComma rest with
    | [] => [[c]]
    | g :: gs => (c :: g) :: gs

/-- Drop leading space characters. -/
def dropSpaces (cs : List Char) : List Char :=
  cs.dropWhile (· = ' ')

/-- Split a character list at the first colon. -/
def splitColon : List Char → Option (List Char × List Char)
  | [] => none
  | ':' :: rest => some ([], rest)
  | c :: rest => Option.map (fun p => (c :: p.1, p.2)) (splitColon rest)

/-- Parse one `name:.field` pair of a JQ object query. -/
def parseJqPair (cs : List Char) : Option (String × String) :=
  match splitColon (dropSpaces cs) with
  | none => none
  | some (name, rhs) =>
    match rhs with
    | '.' :: fld => some (String.mk name, String.mk fld)
    | _ => none

/-- Parse a JQ object query `\x7bn1:.f1, n2:.f2\x7d` into its (output name,
source field) pairs. -/
def parseJqObjectQuery (q : String) : Option (List (String × String)) :=
  match q.data with
  | '\x7b' :: rest =>
    match readPlaceholder rest with
    | some (inner, []) =>
      (splitComma inner).mapM parseJqPair
    | _ => none
  | _ => none

/-- Look up each requested field in the body; fails when any is missing. -/
def extractFields (body : JsonObject) : List (String × String) → Option (List (String × String))
  | [] => some []
  | (n, f) :: rest =>
    match body.lookup f with
    | none => none
    | some v => Option.map (fun r => (n, v) :: r) (extractFields body rest)

/-- Evaluate a JQ object query against a record body, producing the
partition-key metadata. -/
def evalJqQuery (q : String) (body : JsonObject) : Option (List (String × String)) :=
  match parseJqObjectQuery q with
  | none => none
  | some pairs => extractFields body pairs

/-! ### Embedding of the CDK delivery-stream properties

These structures mirror the `CfnDeliveryStream` property classes that
`src/infra/constructs/b1/firehose.py` instantiates.  Fields the claims do
not touch (IAM role wiring, log-group names) are kept only where they
carry configuration values. -/

/-- One `ProcessorParameterProperty` of a Firehose processor. -/
structure ProcessorParameterProperty where
  parameterName : String
  parameterValue : String
deriving DecidableEq, Repr

/-- One `ProcessorProperty` of the Firehose processing configuration. -/
structure ProcessorProperty where
  type : String
  parameters : List ProcessorParameterProperty
deriving DecidableEq, Repr

/-- The `ProcessingConfigurationProperty` of the delivery stream. -/
structure ProcessingConfigurationProperty where
  enabled : Bool
  processors : List ProcessorProperty
deriving DecidableEq, Repr

/-- The `BufferingHintsProperty` of the S3 destination. -/
structure BufferingHintsProperty where
  intervalInSeconds : Int
  sizeInMBs : Int
deriving DecidableEq, Repr

/-- The `RetryOptionsProperty` of dynamic partitioning. -/
structure RetryOptionsProperty where
  durationInSeconds : Int
deriving DecidableEq, Repr

/-- The `DynamicPartitioningConfigurationProperty` of the S3 destination. -/
structure DynamicPartitioningConfigurationProperty where
  enabled : Bool
  retryOptions : RetryOptionsProperty
deriving DecidableEq, Repr

/-- The `CloudWatchLoggingOptionsProperty` of the S3 destination. -/
structure CloudWatchLoggingOptionsProperty where
  enabled : Bool
deriving DecidableEq, Repr

/-- The `ExtendedS3DestinationConfigurationProperty` of the delivery
stream.  The source's `prefix` and `error_output_prefix` strings are the
`prefixTemplate` and `errorOutputPrefixTemplate` fields. -/
structure ExtendedS3DestinationConfigurationProperty where
  compressionFormat : String
  bufferingHints : BufferingHintsProperty
  cloudWatchLoggingOptions : CloudWatchLoggingOptionsProperty
  dynamicPartitioningConfiguration : DynamicPartitioningConfigurationProperty
  processingConfiguration : ProcessingConfigurationProperty
  errorOutputPrefixTemplate : String
  prefixTemplate : String
deriving DecidableEq, Repr

/-- The `CfnDeliveryStream` resource. -/
structure CfnDeliveryStream where
  deliveryStreamType : String
  encryptionKeyType : String
  extendedS3DestinationConfiguration : ExtendedS3DestinationConfigurationProperty
deriving DecidableEq, Repr

/-- Resource attributes the constructs export through SSM: each parameter's
value is a deploy-time reference to one of these. -/
inductive ResourceAttr
  | eventBusArn
  | eventBusName
  | bucketArn
  | deliveryStreamArn
  | firehoseSubscriptionRoleArn
deriving DecidableEq, Repr

/-- An `ssm.StringParameter` export: a fixed parameter name holding a
resource attribute. -/
structure StringParameter where
  parameterName : String
  stringValue : ResourceAttr
deriving DecidableEq, Repr

/-! ### The `B1PubSubFirehose` construct (`src/infra/constructs/b1/firehose.py`) -/

/-- The keyword arguments of `B1PubSubFirehose`: `NotRequired` keys are
options, absent when `none` (the bucket reference carries no configuration
the claims touch and is omitted). -/
structure FirehoseParams where
  bufferIntervalInSeconds : Option Int := none
  bufferSizeInMBs : Option Int := none
deriving DecidableEq, Repr

/-- Modelled from the spec: the `ConfigurationError` error kind of §7
(invalid thresholds at startup).  The source defines no such error. -/
inductive ConfigurationError
  | invalidThresholds
deriving DecidableEq, Repr

/-- The resources `B1PubSubFirehose.__init__` creates, as far as the claims
reach: the delivery stream and the construct's SSM exports. -/
structure B1PubSubFirehoseResources where
  deliveryStream : CfnDeliveryStream
  ssmExports : List StringParameter
deriving DecidableEq, Repr

/-- The inline `processing_configuration` of `B1PubSubFirehose`: record
de-aggregation, delimiter append, then JQ metadata extraction. -/
def b1ProcessingConfiguration : ProcessingConfigurationProperty where
  enabled := true
  processors :=
    [⟨"RecordDeAggregation", [⟨"SubRecordType", "JSON"⟩]⟩,
     ⟨"AppendDelimiterToRecord", [⟨"Delimiter", "\\n"⟩]⟩,
     ⟨"MetadataExtraction",
       [⟨"MetadataExtractionQuery",
         "\x7bevent_publisher:.event_publisher, event_name:.event_name\x7d"⟩,
        ⟨"JsonParsingEngine", "JQ-1.6"⟩]⟩]

/-- The body of `B1PubSubFirehose.__init__`: reads the kwargs with their
defaults and assembles the delivery stream and SSM exports. -/
def b1PubSubFirehoseResources (kwargs : FirehoseParams) : B1PubSubFirehoseResources :=
  let bufferIntervalInSeconds := kwargs.bufferIntervalInSeconds.getD 60
  let bufferSizeInMBs := kwargs.bufferSizeInMBs.getD 64
  { deliveryStream :=
      { deliveryStreamType := "DirectPut"
        encryptionKeyType := "AWS_OWNED_CMK"
        extendedS3DestinationConfiguration :=
          { compressionFormat := "GZIP"
            bufferingHints := ⟨bufferIntervalInSeconds, bufferSizeInMBs⟩
            cloudWatchLoggingOptions := ⟨true⟩
            dynamicPartitioningConfiguration := ⟨true, ⟨10⟩⟩
            processingConfiguration := b1ProcessingConfiguration
            errorOutputPrefixTemplate :=
              "errors/!\x7bfirehose:error-output-type\x7d/date=!\x7btimestamp:yyyy\x7d-!\x7btimestamp:MM\x7d-!\x7btimestamp:dd\x7d/"
            prefixTemplate :=
              "!\x7bpartitionKeyFromQuery:event_publisher\x7d/!\x7bpartitionKeyFromQuery:event_name\x7d/date=!\x7btimestamp:yyyy\x7d-!\x7btimestamp:MM\x7d-!\x7btimestamp:dd\x7d/" } }
    ssmExports :=
      [⟨"/pubsub/s3-delivery-stream/arn", .deliveryStreamArn⟩,
       ⟨"/pubsub/firehose-subscription-role/arn", .firehoseSubscriptionRoleArn⟩] }

/-- Instantiation of `B1PubSubFirehose`: the constructor performs no
validation and has no failure path, so it always returns its resources;
the `Except` records the failure channel a `ConfigurationError` would
use. -/
def mkB1PubSubFirehose (kwargs : FirehoseParams) :
    Except ConfigurationError B1PubSubFirehoseResources :=
  .ok (b1PubSubFirehoseResources kwargs)

/-- The S3 destination configuration of the default instantiation. -/
def b1S3Destination : ExtendedS3DestinationConfigurationProperty :=
  (b1PubSubFirehoseResources {}).deliveryStream.extendedS3DestinationConfiguration

/-! ### The `B1EventBus` construct (`src/infra/constructs/b1/eventbus.py`) -/

/-- The resources `B1EventBus` creates: the archive retention, the schema
discoverer, and the construct's SSM exports. -/
structure B1EventBusResources where
  archiveRetentionDays : Nat
  schemaDiscovererCreated : Bool
  ssmExports : List StringParameter
deriving DecidableEq, Repr

/-- The body of `B1EventBus.__init__`. -/
def b1EventBus : B1EventBusResources where
  archiveRetentionDays := 90
  schemaDiscovererCreated := true
  ssmExports :=
    [⟨"/pubsub/event-bus/arn", .eventBusArn⟩,
     ⟨"/pubsub/event-bus/name", .eventBusName⟩]

/-! ### The `B1PubSubStorage` construct (`src/infra/constructs/b1/storage.py`) -/

/-- Bucket encryption modes used by the source. -/
inductive BucketEncryption
  | s3Managed
  | kmsManaged
  | unencrypted
deriving DecidableEq, Repr

/-- Public-access block settings used by the source. -/
inductive BlockPublicAccess
  | blockAll
  | blockAcls
deriving DecidableEq, Repr

/-- Object-ownership settings used by the source. -/
inductive ObjectOwnership
  | bucketOwnerEnforced
  | objectWriter
deriving DecidableEq, Repr

/-- Storage classes used by the lifecycle rule. -/
inductive StorageClass
  | intelligentTiering
deriving DecidableEq, Repr

/-- One lifecycle transition of the bucket. -/
structure LifecycleTransition where
  storageClass : StorageClass
  transitionAfterDays : Nat
deriving DecidableEq, Repr

/-- The property settings of the events bucket. -/
structure BucketProps where
  encryption : BucketEncryption
  blockPublicAccess : BlockPublicAccess
  versioned : Bool
  objectOwnership : ObjectOwnership
  serverAccessLogsKey : String
  transferAcceleration : Bool
  lifecycleTransitions : List LifecycleTransition
deriving DecidableEq, Repr

/-- Topics this construct creates. -/
inductive TopicRef
  | fileCreatedTopic
deriving DecidableEq, Repr

/-- S3 event categories wired to notifications. -/
inductive S3EventType
  | objectCreated
deriving DecidableEq, Repr

/-- One bucket notification: an event category delivered to a topic. -/
structure BucketNotification where
  event : S3EventType
  destination : TopicRef
deriving DecidableEq, Repr

/-- The resources `B1PubSubStorage` creates. -/
structure B1PubSubStorageResources where
  bucket : BucketProps
  notifications : List BucketNotification
  topicDisplayName : String
  ssmExports : List StringParameter
deriving DecidableEq, Repr

/-- The body of `B1PubSubStorage.__init__`. -/
def b1PubSubStorage : B1PubSubStorageResources where
  bucket :=
    { encryption := .s3Managed
      blockPublicAccess := .blockAll
      versioned := true
      objectOwnership := .bucketOwnerEnforced
      serverAccessLogsKey := "S3Logs/"
      transferAcceleration := false
      lifecycleTransitions := [⟨.intelligentTiering, 60⟩] }
  notifications := [⟨.objectCreated, .fileCreatedTopic⟩]
  topicDisplayName := "pubsub-FileCreated"
  ssmExports := [⟨"/pubsub/bucket/arn", .bucketArn⟩]

/-! ### The `B2PubSub` composition (`src/infra/constructs/b2/pubsub.py`)

The composition imports `B1Firehose` and `B1Storage`, classes that are not
among the sources (the sources hold the `B1PubSubFirehose` /
`B1PubSubStorage` variant instead); per the spec these are the bus-native
delivery-stream variant and its storage companion. -/

/-- The two delivery-stream variants the spec describes: the bus-native
one partitioning on the bus envelope fields, and the manual-envelope one
partitioning on `event_publisher` / `event_name`. -/
inductive DeliveryStreamVariant
  | busNative
  | manualEnvelope
deriving DecidableEq, Repr

/-- The partition fields each variant extracts.  The bus-native fields are
modelled from the spec: `source` and `detail-type`; the manual-envelope
fields are those of the `B1PubSubFirehose` metadata-extraction query. -/
def partitionFieldsOf : DeliveryStreamVariant → List String
  | .busNative => ["source", "detail-type"]
  | .manualEnvelope => ["event_publisher", "event_name"]

/-- The variant of the `B1PubSubFirehose` construct in the sources. -/
def b1PubSubFirehoseVariant : DeliveryStreamVariant := .manualEnvelope

/-- Modelled from the spec: the variant of the `B1Firehose` class that
`b2/pubsub.py` imports; that class is not among the sources, and per the
spec it is the bus-native variant (the authoritative one). -/
def b1FirehoseVariant : DeliveryStreamVariant := .busNative

/-- The child constructs `B2PubSub.__init__` instantiates, in order. -/
inductive ChildConstruct
  | eventBusChild
  | storageChild
  | firehoseChild (variant : DeliveryStreamVariant)
deriving DecidableEq, Repr

/-- The body of `B2PubSub.__init__`: one event bus, one storage, one
`B1Firehose` delivery stream wired to the bus and bucket. -/
def b2PubSubChildren : List ChildConstruct :=
  [.eventBusChild, .storageChild, .firehoseChild b1FirehoseVariant]

/-- The delivery-stream variants instantiated by the composition. -/
def b2DeliveryStreamVariants : List DeliveryStreamVariant :=
  b2PubSubChildren.filterMap fun c =>
    match c with
    | .firehoseChild v => some v
    | _ => none

/-! ### Managed delivery-stream semantics

Modelled from the spec: the behaviour the managed streaming service gives
to the configuration above — the per-record transform pipeline (§4.3), the
dynamic-partitioning prefix rendering, and the error routing (§4.2, §7).
The configuration values it consumes (processor list, query, templates,
compression) are the embedded source values. -/

/-- A raw record as submitted to the delivery stream: either one JSON body
or a client-side aggregate of several sub-record bodies. -/
inductive RawRecord
  | single (body : JsonObject)
  | aggregated (bodies : List JsonObject)
deriving DecidableEq, Repr

/-- Serialize a flat JSON object canonically. -/
def serializeJson (body : JsonObject) : String :=
  "\x7b" ++ String.intercalate ","
    (body.map fun kv => "\"" ++ kv.1 ++ "\":\"" ++ kv.2 ++ "\"") ++ "\x7d"

/-- Serialize a raw record: an aggregate is the concatenation of its
sub-records' bytes. -/
def serializeRaw : RawRecord → String
  | .single b => serializeJson b
  | .aggregated bs => String.join (bs.map serializeJson)

/-- De-aggregate a raw record into its constituent sub-record bodies. -/
def deaggregate : RawRecord → List JsonObject
  | .single b => [b]
  | .aggregated bs => bs

/-- One record moving through the processor pipeline: its payload, its
output bytes so far, and the partition metadata extracted so far. -/
structure PipeItem where
  payload : RawRecord
  out : String
  metadata : Option (List (String × String))
deriving DecidableEq, Repr

/-- The pipeline item a raw record enters the pipeline as. -/
def initialItem (r : RawRecord) : PipeItem :=
  ⟨r, serializeRaw r, none⟩

/-- Fetch a processor parameter by name. -/
def getParameter (ps : List ProcessorParameterProperty) (n : String) : Option String :=
  (ps.find? fun q => q.parameterName == n).map (·.parameterValue)

/-- Interpret the configured delimiter literal: the source writes the
two-character escape for a newline, which the service interprets as the
newline byte. -/
def interpretDelimiter (s : String) : String :=
  if s = "\\n" then "\n" else s

/-- The de-aggregation stage: split each composite payload into its
sub-records, each re-serialized on its own. -/
def deAggregationStage (items : List PipeItem) : List PipeItem :=
  items.flatMap fun it =>
    (deaggregate it.payload).map fun b => ⟨.single b, serializeJson b, it.metadata⟩

/-- The delimiter-append stage: append the delimiter to each record's
output bytes. -/
def appendDelimiterStage (delim : String) (items : List PipeItem) : List PipeItem :=
  items.map fun it => { it with out := it.out ++ delim }

/-- The metadata-extraction stage: evaluate the JQ query against each
record's body; a composite payload has no single body and fails. -/
def metadataExtractionStage (q : String) (items : List PipeItem) : List PipeItem :=
  items.map fun it =>
    match it.payload with
    | .single b => { it with metadata := evalJqQuery q b }
    | .aggregated _ => { it with metadata := none }

/-- Apply one configured processor to the in-flight records. -/
def applyProcessor (p : ProcessorProperty) (items : List PipeItem) : List PipeItem :=
  if p.type = "RecordDeAggregation" then
    deAggregationStage items
  else if p.type = "AppendDelimiterToRecord" then
    appendDelimiterStage (interpretDelimiter ((getParameter p.parameters "Delimiter").getD "")) items
  else if p.type = "MetadataExtraction" then
    match getParameter p.parameters "MetadataExtractionQuery" with
    | some q => metadataExtractionStage q items
    | none => items
  else items

/-- Run the configured processing pipeline over in-flight records, in the
configured processor order. -/
def runProcessing (cfg : ProcessingConfigurationProperty) (items : List PipeItem) : List PipeItem :=
  if cfg.enabled then cfg.processors.foldl (fun acc p => applyProcessor p acc) items
  else items

/-- Strip a literal from the front of a character list. -/
def stripPre : List Char → List Char → Option (List Char)
  | [], cs => some cs
  | _ :: _, [] => none
  | p :: ps, c :: cs => if p = c then stripPre ps cs else none

/-- Placeholder substitution for the data prefix: timestamp fields render
from the batch flush time, and `partitionKeyFromQuery:*` placeholders
render from the extracted metadata. -/
def dataSubst (keys : List (String × String)) (ts : Timestamp) (p : String) : Option String :=
  if p = "timestamp:yyyy" then some (pad4 ts.year)
  else if p = "timestamp:MM" then some (pad2 ts.month)
  else if p = "timestamp:dd" then some (pad2 ts.day)
  else
    match stripPre "partitionKeyFromQuery:".data p.data with
    | some k => keys.lookup (String.mk k)
    | none => none

/-- Placeholder substitution for the error prefix: the error-output type
and the timestamp fields. -/
def errorSubst (errType : String) (ts : Timestamp) (p : String) : Option String :=
  if p = "firehose:error-output-type" then some errType
  else if p = "timestamp:yyyy" then some (pad4 ts.year)
  else if p = "timestamp:MM" then some (pad2 ts.month)
  else if p = "timestamp:dd" then some (pad2 ts.day)
  else none

/-- Modelled from the spec: the error-output type tag for records whose
partition-field extraction fails (§7 `MalformedRecord`). -/
def malformedRecordTag : String := "MalformedRecord"

/-- A write the delivery stream performs for one record: either to the
data path or to the error path, always carrying the record bytes. -/
inductive RoutedWrite
  | data (path : String) (content : String)
  | errorRoute (path : String) (content : String)
deriving DecidableEq, Repr

/-- Whether a routed write went to the error path. -/
def RoutedWrite.isError : RoutedWrite → Bool
  | .data _ _ => false
  | .errorRoute _ _ => true

/-- Route one processed record at flush time: metadata present renders the
data prefix, absent metadata renders the error prefix; rendering failure
(a template placeholder with no value) yields `none`. -/
def routeItem (dst : ExtendedS3DestinationConfigurationProperty) (it : PipeItem)
    (flush : Timestamp) : Option RoutedWrite :=
  match it.metadata with
  | some keys =>
    Option.map (fun p => .data p it.out)
      (renderTemplate (dataSubst keys flush) dst.prefixTemplate)
  | none =>
    Option.map (fun p => .errorRoute p it.out)
      (renderTemplate (errorSubst malformedRecordTag flush) dst.errorOutputPrefixTemplate)

/-- Process one single-body record through the configured pipeline and
route it at flush time. -/
def processSingle (dst : ExtendedS3DestinationConfigurationProperty)
    (body : JsonObject) (flush : Timestamp) : Option RoutedWrite :=
  match runProcessing dst.processingConfiguration [initialItem (.single body)] with
  | [it] => routeItem dst it flush
  | _ => none

/-- The metadata-extraction query the destination configures. -/
def metadataQueryOf (dst : ExtendedS3DestinationConfigurationProperty) : Option String :=
  (dst.processingConfiguration.processors.find? fun p => p.type == "MetadataExtraction").bind
    fun p => getParameter p.parameters "MetadataExtractionQuery"

/-- The partition keys the destination's query extracts from a body. -/
def extractedKeys (dst : ExtendedS3DestinationConfigurationProperty)
    (body : JsonObject) : Option (List (String × String)) :=
  match metadataQueryOf dst with
  | none => none
  | some q => evalJqQuery q body

/-! ### Helper lemmas -/

/-- The metadata-extraction query of `B1PubSubFirehose` parses to the two
partition-field selections. -/
theorem b1Query_pairs :
    parseJqObjectQuery "\x7bevent_publisher:.event_publisher, event_name:.event_name\x7d" =
      some [("event_publisher", "event_publisher"), ("event_name", "event_name")] := by
  decide

/-- The destination's configured metadata-extraction query. -/
theorem b1Query_sel : metadataQueryOf b1S3Destination =
    some "\x7bevent_publisher:.event_publisher, event_name:.event_name\x7d" := by
  decide

/-- The data-prefix substitution depends on the flush time only through its
date. -/
theorem dataSubst_toDate (keys : List (String × String)) (f₁ f₂ : Timestamp)
    (h : f₁.toDate = f₂.toDate) : dataSubst keys f₁ = dataSubst keys f₂ := by
  have hy : f₁.year = f₂.year := congrArg Date.year h
  have hm : f₁.month = f₂.month := congrArg Date.month h
  have hd : f₁.day = f₂.day := congrArg Date.day h
  funext p
  simp [dataSubst, hy, hm, hd]

/-- The error-prefix substitution depends on the flush time only through
its date. -/
theorem errorSubst_toDate (errType : String) (f₁ f₂ : Timestamp)
    (h : f₁.toDate = f₂.toDate) : errorSubst errType f₁ = errorSubst errType f₂ := by
  have hy : f₁.year = f₂.year := congrArg Date.year h
  have hm : f₁.month = f₂.month := congrArg Date.month h
  have hd : f₁.day = f₂.day := congrArg Date.day h
  funext p
  simp [errorSubst, hy, hm, hd]

/-- Routing depends on the flush time only through its date. -/
theorem routeItem_toDate (dst : ExtendedS3DestinationConfigurationProperty)
    (it : PipeItem) (f₁ f₂ : Timestamp) (h : f₁.toDate = f₂.toDate) :
    routeItem dst it f₁ = routeItem dst it f₂ := by
  cases hm : it.metadata with
  | some keys => simp [routeItem, hm, dataSubst_toDate keys f₁ f₂ h]
  | none => simp [routeItem, hm, errorSubst_toDate malformedRecordTag f₁ f₂ h]

/-- Per-record processing and routing depend on the flush time only through
its date. -/
theorem processSingle_toDate (dst : ExtendedS3DestinationConfigurationProperty)
    (body : JsonObject) (f₁ f₂ : Timestamp) (h : f₁.toDate = f₂.toDate) :
    processSingle dst body f₁ = processSingle dst body f₂ := by
  unfold processSingle
  cases runProcessing dst.processingConfiguration [initialItem (.single body)] with
  | nil => rfl
  | cons a l =>
    cases l with
    | nil => exact routeItem_toDate dst a f₁ f₂ h
    | cons b l' => rfl

/-! ### The claims -/

/-- C1: for every record whose body carries non-empty partition fields —
in this construct the record's `source` is its `event_publisher` field and
its `event_type` its `event_name` field — the metadata extraction at write
time yields exactly those two fields, the record is written under the path
`source/event_type/date=yyyy-MM-dd/` built from the batch flush time, and
the path depends on the flush time only through its date (day
granularity), so the partition key is `(source, event_type,
date(flush_time))`. -/
theorem partition_key_is_source_type_flush_date
    (body : JsonObject) (s t : String) (flush : Timestamp)
    (hs : body.lookup "event_publisher" = some s)
    (ht : body.lookup "event_name" = some t)
    (_hs0 : s ≠ "") (_ht0 : t ≠ "") :
    extractedKeys b1S3Destination body =
      some [("event_publisher", s), ("event_name", t)] ∧
    processSingle b1S3Destination body flush =
      some (.data (s ++ "/" ++ t ++ "/date=" ++ pad4 flush.year ++ "-" ++
        pad2 flush.month ++ "-" ++ pad2 flush.day ++ "/")
        (serializeJson body ++ "\n")) ∧
    (∀ flush₂ : Timestamp, flush.toDate = flush₂.toDate →
      processSingle b1S3Destination body flush = processSingle b1S3Destination body flush₂) := by
  refine ⟨?_, ?_, fun flush₂ h => processSingle_toDate _ _ _ _ h⟩
  · simp [extractedKeys, b1Query_sel, evalJqQuery, b1Query_pairs, extractFields, hs, ht]
  · simp [processSingle, runProcessing, b1S3Destination, b1PubSubFirehoseResources,
      b1ProcessingConfiguration, applyProcessor, deAggregationStage, deaggregate,
      appendDelimiterStage, metadataExtractionStage, initialItem, serializeRaw,
      getParameter, interpretDelimiter, evalJqQuery, b1Query_pairs, extractFields,
      hs, ht, routeItem, renderTemplate, renderParts, dataSubst, stripPre, List.lookup,
      String.append_assoc]

/-- Witness for C1 at a concrete record and flush time. -/
theorem partition_key_is_source_type_flush_date_witness :
    List.lookup "event_publisher" [("event_publisher", "svc"), ("event_name", "created")] =
      some "svc" ∧
    List.lookup "event_name" [("event_publisher", "svc"), ("event_name", "created")] =
      some "created" ∧
    "svc" ≠ "" ∧ "created" ≠ "" ∧
    extractedKeys b1S3Destination [("event_publisher", "svc"), ("event_name", "created")] =
      some [("event_publisher", "svc"), ("event_name", "created")] := by
  refine ⟨by decide, by decide, by decide, by decide, ?_⟩
  exact (partition_key_is_source_type_flush_date
    [("event_publisher", "svc"), ("event_name", "created")] "svc" "created"
    ⟨2024, 3, 5, 10, 30, 0⟩ (by decide) (by decide) (by decide) (by decide)).1

/-- C3: a record is routed to the error path exactly when metadata
extraction fails, and it is always written somewhere (never silently
dropped); in particular a record with body `("event_type", "x")` only —
so with no `source` / `event_publisher` field — is written under
`errors/MalformedRecord/date=yyyy-MM-dd/`. -/
theorem error_routing_iff_extraction_fails (body : JsonObject) (flush : Timestamp) :
    (∃ w, processSingle b1S3Destination body flush = some w ∧
      (w.isError = true ↔ extractedKeys b1S3Destination body = none)) ∧
    processSingle b1S3Destination [("event_type", "x")] flush =
      some (.errorRoute ("errors/" ++ malformedRecordTag ++ "/date=" ++ pad4 flush.year ++
        "-" ++ pad2 flush.month ++ "-" ++ pad2 flush.day ++ "/")
        (serializeJson [("event_type", "x")] ++ "\n")) := by
  constructor
  · cases hep : body.lookup "event_publisher" with
    | none =>
      refine ⟨.errorRoute ("errors/" ++ malformedRecordTag ++ "/date=" ++ pad4 flush.year ++
        "-" ++ pad2 flush.month ++ "-" ++ pad2 flush.day ++ "/")
        (serializeJson body ++ "\n"), ?_, ?_⟩
      · simp [processSingle, runProcessing, b1S3Destination, b1PubSubFirehoseResources,
          b1ProcessingConfiguration, applyProcessor, deAggregationStage, deaggregate,
          appendDelimiterStage, metadataExtractionStage, initialItem, serializeRaw,
          getParameter, interpretDelimiter, evalJqQuery, b1Query_pairs, extractFields,
          hep, routeItem, renderTemplate, renderParts, errorSubst,
          String.append_assoc]
      · simp [RoutedWrite.isError, extractedKeys, b1Query_sel, evalJqQuery, b1Query_pairs,
          extractFields, hep]
    | some s =>
      cases hen : body.lookup "event_name" with
      | none =>
        refine ⟨.errorRoute ("errors/" ++ malformedRecordTag ++ "/date=" ++ pad4 flush.year ++
          "-" ++ pad2 flush.month ++ "-" ++ pad2 flush.day ++ "/")
          (serializeJson body ++ "\n"), ?_, ?_⟩
        · simp [processSingle, runProcessing, b1S3Destination, b1PubSubFirehoseResources,
            b1ProcessingConfiguration, applyProcessor, deAggregationStage, deaggregate,
            appendDelimiterStage, metadataExtractionStage, initialItem, serializeRaw,
            getParameter, interpretDelimiter, evalJqQuery, b1Query_pairs, extractFields,
            hep, hen, routeItem, renderTemplate, renderParts, errorSubst,
            String.append_assoc]
        · simp [RoutedWrite.isError, extractedKeys, b1Query_sel, evalJqQuery, b1Query_pairs,
            extractFields, hep, hen]
      | some t =>
        refine ⟨.data (s ++ "/" ++ t ++ "/date=" ++ pad4 flush.year ++ "-" ++
          pad2 flush.month ++ "-" ++ pad2 flush.day ++ "/") (serializeJson body ++ "\n"),
          ?_, ?_⟩
        · simp [processSingle, runProcessing, b1S3Destination, b1PubSubFirehoseResources,
            b1ProcessingConfiguration, applyProcessor, deAggregationStage, deaggregate,
            appendDelimiterStage, metadataExtractionStage, initialItem, serializeRaw,
            getParameter, interpretDelimiter, evalJqQuery, b1Query_pairs, extractFields,
            hep, hen, routeItem, renderTemplate, renderParts, dataSubst, stripPre,
            List.lookup, String.append_assoc]
        · simp [RoutedWrite.isError, extractedKeys, b1Query_sel, evalJqQuery, b1Query_pairs,
            extractFields, hep, hen]
  · simp [processSingle, runProcessing, b1S3Destination, b1PubSubFirehoseResources,
      b1ProcessingConfiguration, applyProcessor, deAggregationStage, deaggregate,
      appendDelimiterStage, metadataExtractionStage, initialItem, serializeRaw,
      getParameter, interpretDelimiter, evalJqQuery, b1Query_pairs, extractFields,
      routeItem, renderTemplate, renderParts, errorSubst,
      List.lookup, String.append_assoc]

/-- Witness for C3 at a concrete record and flush time: the record with
only an `event_type` field is written, and to the error path. -/
theorem error_routing_iff_extraction_fails_witness :
    ∃ w, processSingle b1S3Destination [("event_type", "x")] ⟨2024, 3, 5, 10, 30, 0⟩ =
      some w ∧ (w.isError = true ↔
        extractedKeys b1S3Destination [("event_type", "x")] = none) :=
  (error_routing_iff_extraction_fails [("event_type", "x")] ⟨2024, 3, 5, 10, 30, 0⟩).1

/-- C2: the composed pipeline instantiates exactly one delivery-stream
variant, the bus-native one (partitioning on `source` / `detail-type`);
the manual-envelope variant — the `B1PubSubFirehose` in the sources, whose
metadata query extracts `event_publisher` / `event_name` — is not the one
`B2PubSub` instantiates. -/
theorem composition_uses_bus_native_variant :
    b2DeliveryStreamVariants = [.busNative] ∧
    partitionFieldsOf .busNative = ["source", "detail-type"] ∧
    b1PubSubFirehoseVariant = .manualEnvelope ∧
    DeliveryStreamVariant.manualEnvelope ∉ b2DeliveryStreamVariants ∧
    ((metadataQueryOf b1S3Destination).bind parseJqObjectQuery).map
        (List.map Prod.snd) =
      some (partitionFieldsOf b1PubSubFirehoseVariant) := by
  refine ⟨by decide, by decide, by decide, by decide, ?_⟩
  simp [b1Query_sel, b1Query_pairs, partitionFieldsOf, b1PubSubFirehoseVariant]

/-- C4 counterexample: instantiating the construct with buffer interval 0
and buffer size 0 does not fail — there is no startup validation — and
the delivery stream is created with those values. -/
theorem no_threshold_validation_counterexample :
    (mkB1PubSubFirehose ⟨some 0, some 0⟩).isOk = true ∧
    (mkB1PubSubFirehose ⟨some 0, some 0⟩).map
        (fun r => r.deliveryStream.extendedS3DestinationConfiguration.bufferingHints) =
      .ok ⟨0, 0⟩ :=
  ⟨rfl, rfl⟩

/-- C4 amended: instantiation with a non-positive buffer size or buffer
interval does not raise a `ConfigurationError`; the constructor succeeds
and passes the values through unchanged to the delivery stream's buffering
hints. -/
theorem non_positive_thresholds_accepted (i sz : Int) (_h : i ≤ 0 ∨ sz ≤ 0) :
    (mkB1PubSubFirehose ⟨some i, some sz⟩).isOk = true ∧
    (mkB1PubSubFirehose ⟨some i, some sz⟩).map
        (fun r => r.deliveryStream.extendedS3DestinationConfiguration.bufferingHints) =
      .ok ⟨i, sz⟩ :=
  ⟨rfl, rfl⟩

/-- Witness for the amended C4 at interval 0 and size 0. -/
theorem non_positive_thresholds_accepted_witness :
    ((0 : Int) ≤ 0 ∨ (0 : Int) ≤ 0) ∧
    (mkB1PubSubFirehose ⟨some 0, some 0⟩).isOk = true :=
  ⟨Or.inl le_rfl, (non_positive_thresholds_accepted 0 0 (Or.inl le_rfl)).1⟩

/-- C5: without explicit buffer options the buffering hints default to a
60-second interval and a 64 MB size. -/
theorem buffer_defaults_60_64 :
    (mkB1PubSubFirehose {}).map
        (fun r => r.deliveryStream.extendedS3DestinationConfiguration.bufferingHints) =
      .ok ⟨60, 64⟩ :=
  rfl

/-- C6: the processing configuration is enabled with exactly three
processors — de-aggregation, then delimiter append, then metadata
extraction — and running the pipeline on any batch is exactly the
composition of those three stages in that order. -/
theorem pipeline_is_three_stages_in_order :
    b1ProcessingConfiguration.enabled = true ∧
    b1ProcessingConfiguration.processors.map (·.type) =
      ["RecordDeAggregation", "AppendDelimiterToRecord", "MetadataExtraction"] ∧
    ∀ batch : List PipeItem,
      runProcessing b1ProcessingConfiguration batch =
        metadataExtractionStage
          "\x7bevent_publisher:.event_publisher, event_name:.event_name\x7d"
          (appendDelimiterStage "\n" (deAggregationStage batch)) := by
  refine ⟨rfl, by decide, fun batch => ?_⟩
  simp [runProcessing, b1ProcessingConfiguration, applyProcessor, getParameter,
    interpretDelimiter]

/-- C7: the transform pipeline and routing are deterministic functions of
the record and the flush time — two runs on the same raw record yield
byte-identical transformed output, identical extracted partition metadata,
and the identical routed write. -/
theorem pipeline_deterministic (r₁ r₂ : RawRecord) (f₁ f₂ : Timestamp)
    (hr : r₁ = r₂) (hf : f₁ = f₂) :
    (runProcessing b1ProcessingConfiguration [initialItem r₁]).map (·.out) =
      (runProcessing b1ProcessingConfiguration [initialItem r₂]).map (·.out) ∧
    (runProcessing b1ProcessingConfiguration [initialItem r₁]).map (·.metadata) =
      (runProcessing b1ProcessingConfiguration [initialItem r₂]).map (·.metadata) ∧
    (runProcessing b1ProcessingConfiguration [initialItem r₁]).map
        (fun it => routeItem b1S3Destination it f₁) =
      (runProcessing b1ProcessingConfiguration [initialItem r₂]).map
        (fun it => routeItem b1S3Destination it f₂) := by
  subst hr; subst hf
  exact ⟨rfl, rfl, rfl⟩

/-- Witness for C7 at a concrete record and flush time. -/
theorem pipeline_deterministic_witness :
    RawRecord.single [("event_publisher", "svc")] = .single [("event_publisher", "svc")] ∧
    (runProcessing b1ProcessingConfiguration
        [initialItem (.single [("event_publisher", "svc")])]).map (·.out) =
      (runProcessing b1ProcessingConfiguration
        [initialItem (.single [("event_publisher", "svc")])]).map (·.out) :=
  ⟨rfl, (pipeline_deterministic (.single [("event_publisher", "svc")])
    (.single [("event_publisher", "svc")]) ⟨2024, 1, 1, 0, 0, 0⟩ ⟨2024, 1, 1, 0, 0, 0⟩
    rfl rfl).1⟩

/-- C8: the destination compresses with GZIP, a data record's path renders
from the fixed template as `key1/key2/date=yyyy-MM-dd/`, and an error
record's path renders as `errors/errorType/date=yyyy-MM-dd/`. -/
theorem output_gzip_and_path_templates :
    b1S3Destination.compressionFormat = "GZIP" ∧
    (∀ (k₁ k₂ : String) (ts : Timestamp),
      renderTemplate (dataSubst [("event_publisher", k₁), ("event_name", k₂)] ts)
          b1S3Destination.prefixTemplate =
        some (k₁ ++ "/" ++ k₂ ++ "/date=" ++ pad4 ts.year ++ "-" ++ pad2 ts.month ++
          "-" ++ pad2 ts.day ++ "/")) ∧
    (∀ (errType : String) (ts : Timestamp),
      renderTemplate (errorSubst errType ts) b1S3Destination.errorOutputPrefixTemplate =
        some ("errors/" ++ errType ++ "/date=" ++ pad4 ts.year ++ "-" ++ pad2 ts.month ++
          "-" ++ pad2 ts.day ++ "/")) := by
  refine ⟨rfl, fun k₁ k₂ ts => ?_, fun errType ts => ?_⟩
  · simp [b1S3Destination, b1PubSubFirehoseResources, renderTemplate, renderParts,
      dataSubst, stripPre, List.lookup, String.append_assoc]
  · simp [b1S3Destination, b1PubSubFirehoseResources, renderTemplate, renderParts,
      errorSubst, String.append_assoc]

/-- C9: the three constructs publish exactly five SSM parameters, under
the five fixed names, holding respectively the event-bus ARN, the
event-bus name, the bucket ARN, the delivery-stream ARN and the
subscription-role ARN; the names are pairwise distinct. -/
theorem ssm_exports_exactly_five :
    b1EventBus.ssmExports ++ b1PubSubStorage.ssmExports ++
        (b1PubSubFirehoseResources {}).ssmExports =
      [⟨"/pubsub/event-bus/arn", .eventBusArn⟩,
       ⟨"/pubsub/event-bus/name", .eventBusName⟩,
       ⟨"/pubsub/bucket/arn", .bucketArn⟩,
       ⟨"/pubsub/s3-delivery-stream/arn", .deliveryStreamArn⟩,
       ⟨"/pubsub/firehose-subscription-role/arn", .firehoseSubscriptionRoleArn⟩] ∧
    ((b1EventBus.ssmExports ++ b1PubSubStorage.ssmExports ++
        (b1PubSubFirehoseResources {}).ssmExports).map (·.parameterName)).Nodup := by
  constructor
  · rfl
  · decide

/-- C10: the events bucket is created with all public access blocked,
S3-managed encryption, versioning, and bucket-owner-enforced ownership,
and its only notification publishes every object-created event to the
file-created topic. -/
theorem bucket_protections_and_notification :
    b1PubSubStorage.bucket.blockPublicAccess = .blockAll ∧
    b1PubSubStorage.bucket.encryption = .s3Managed ∧
    b1PubSubStorage.bucket.versioned = true ∧
    b1PubSubStorage.bucket.objectOwnership = .bucketOwnerEnforced ∧
    b1PubSubStorage.notifications = [⟨.objectCreated, .fileCreatedTopic⟩] :=
  ⟨rfl, rfl, rfl, rfl, rfl⟩

end PubSub
